import Mathlib

/-!
Shallow embedding of `src/exchange.rs` from the `sys` repository: the
`Exchange` identity enum with its `Display` and `FromStr` implementations,
the `ExchangeCredentials` and `ExchangeBalance` value types, the
`USD_COINS` reference constant, the `recent_deposits` result shape, and
the `exchange_client_new` factory.  Rust `f64` amounts carry no arithmetic
in this module, so they are modelled as rationals; fallible operations
return `Except`.
-/

/-- The `Exchange` enum (exchange.rs): the closed set of supported exchange
identities. -/
inductive Exchange where
  | Binance
  | BinanceUs
  | Coinbase
  | Ftx
  | FtxUs
  | Kraken
  deriving DecidableEq, Repr

/-- The `Display` impl for `Exchange` writes `{self:?}`, i.e. the derived
`Debug` form, which for a fieldless enum variant is exactly the variant
name. -/
def Exchange.display : Exchange → String
  | .Binance => "Binance"
  | .BinanceUs => "BinanceUs"
  | .Coinbase => "Coinbase"
  | .Ftx => "Ftx"
  | .FtxUs => "FtxUs"
  | .Kraken => "Kraken"

/-- The all-lowercase spelling each `FromStr` match arm accepts alongside the
canonical one (second literal of each arm in exchange.rs). -/
def Exchange.lower : Exchange → String
  | .Binance => "binance"
  | .BinanceUs => "binanceus"
  | .Coinbase => "coinbase"
  | .Ftx => "ftx"
  | .FtxUs => "ftxus"
  | .Kraken => "kraken"

/-- `ParseExchangeError` (exchange.rs): the single parse-failure value. -/
inductive ParseExchangeError where
  | InvalidExchange
  deriving DecidableEq, Repr

/-- The `FromStr` impl for `Exchange` (exchange.rs): a string match whose
arms each accept the canonical capitalized literal or the all-lowercase
literal, with a catch-all arm returning `InvalidExchange`. -/
def Exchange.fromStr (s : String) : Except ParseExchangeError Exchange :=
  if s = "Binance" ∨ s = "binance" then .ok .Binance
  else if s = "BinanceUs" ∨ s = "binanceus" then .ok .BinanceUs
  else if s = "Coinbase" ∨ s = "coinbase" then .ok .Coinbase
  else if s = "Ftx" ∨ s = "ftx" then .ok .Ftx
  else if s = "FtxUs" ∨ s = "ftxus" then .ok .FtxUs
  else if s = "Kraken" ∨ s = "kraken" then .ok .Kraken
  else .error .InvalidExchange

deriving instance DecidableEq for Except

/-- `USD_COINS` (exchange.rs): the static stablecoin-symbol list. -/
def USD_COINS : List String := ["USD", "USDC", "USDT", "BUSD", "ZUSD"]

/-- Rust `f64` amounts: this module performs no floating-point arithmetic on
them (they are plain data fields), so they are modelled as rationals, with
`f64::default()` (`0.0`) modelled as `0`. -/
abbrev F64 := ℚ

/-- `ExchangeCredentials` (exchange.rs): api key, secret, optional
subaccount. -/
structure ExchangeCredentials where
  api_key : String
  secret : String
  subaccount : Option String
  deriving DecidableEq, Repr

/-- The derived `PartialEq` on `ExchangeCredentials`: field-wise
comparison. -/
def ExchangeCredentials.eqImpl (a b : ExchangeCredentials) : Bool :=
  a.api_key == b.api_key && a.secret == b.secret && a.subaccount == b.subaccount

/-- The derived `Serialize` on `ExchangeCredentials` emits the three fields
in declaration order; the per-backend wire encoding is external to this
module, so the serialized form is modelled as the emitted field list, an
`Option String` value covering the `Option<String>` field. -/
def ExchangeCredentials.serializeFields (c : ExchangeCredentials) :
    List (String × Option String) :=
  [("api_key", some c.api_key), ("secret", some c.secret),
   ("subaccount", c.subaccount)]

/-- `ExchangeBalance` (exchange.rs): available and total amounts for one
asset. -/
structure ExchangeBalance where
  available : F64
  total : F64
  deriving DecidableEq, Repr

/-- The derived `Default` for `ExchangeBalance`: each `f64` field takes
`f64::default()`, which is `0.0`. -/
def ExchangeBalance.default : ExchangeBalance :=
  { available := 0, total := 0 }

/-- `DepositInfo` (exchange.rs): one observed incoming transfer. -/
structure DepositInfo where
  tx_id : String
  amount : F64
  deriving DecidableEq, Repr

/-- The result type of `ExchangeClient::recent_deposits`
(`Result<Option<Vec<DepositInfo>>, _>` in exchange.rs), with the boxed
error type left abstract. -/
abbrev RecentDepositsResult (ε : Type) := Except ε (Option (List DepositInfo))

/-- The six adapter constructors consumed by `exchange_client_new`
(`binance_exchange::new`, `binance_exchange::new_us`,
`coinbase_exchange::new`, `ftx_exchange::new`, `ftx_exchange::new_us`,
`kraken_exchange::new`).  They live in sibling modules outside this file
and are opaque to it, so they are parameters of the factory; `C` stands for
the boxed `dyn ExchangeClient` and `ε` for the boxed error type. -/
structure AdapterConstructors (ε C : Type) where
  binance_new : ExchangeCredentials → Except ε C
  binance_new_us : ExchangeCredentials → Except ε C
  coinbase_new : ExchangeCredentials → Except ε C
  ftx_new : ExchangeCredentials → Except ε C
  ftx_new_us : ExchangeCredentials → Except ε C
  kraken_new : ExchangeCredentials → Except ε C

/-- `exchange_client_new` (exchange.rs): dispatches on the `Exchange` value
to the matching adapter constructor, forwarding the credentials; the `?` on
each arm propagates the constructor's error, and success is boxed
unchanged (boxing is the identity in this model). -/
def exchange_client_new {ε C : Type} (a : AdapterConstructors ε C)
    (exchange : Exchange) (creds : ExchangeCredentials) : Except ε C :=
  match exchange with
  | .Binance => a.binance_new creds
  | .BinanceUs => a.binance_new_us creds
  | .Coinbase => a.coinbase_new creds
  | .Ftx => a.ftx_new creds
  | .FtxUs => a.ftx_new_us creds
  | .Kraken => a.kraken_new creds

/-- Sample adapter constructors used to instantiate factory theorems at a
concrete input. -/
def sampleCtors : AdapterConstructors Unit Unit :=
  ⟨fun _ => .ok (), fun _ => .error (), fun _ => .ok (),
   fun _ => .ok (), fun _ => .error (), fun _ => .ok ()⟩

/-- Sample credential bundle used to instantiate theorems at a concrete
input. -/
def sampleCreds : ExchangeCredentials :=
  ⟨"key", "hunter2", none⟩

/-- C1: for every `Exchange` variant, `fromStr` accepts exactly the
canonical capitalized spelling and the all-lowercase spelling, returning
that variant; every other string (including other casings such as
"KRAKEN") fails with `InvalidExchange`. -/
theorem fromStr_accepts_exactly_two_spellings :
    (∀ (s : String) (e : Exchange),
      Exchange.fromStr s = .ok e ↔ (s = e.display ∨ s = e.lower)) ∧
    (∀ s : String, (∀ e : Exchange, s ≠ e.display ∧ s ≠ e.lower) →
      Exchange.fromStr s = .error .InvalidExchange) := by
  constructor
  · intro s e
    unfold Exchange.fromStr
    split_ifs with h1 h2 h3 h4 h5 h6
    · rcases h1 with rfl | rfl <;> cases e <;> decide
    · rcases h2 with rfl | rfl <;> cases e <;> decide
    · rcases h3 with rfl | rfl <;> cases e <;> decide
    · rcases h4 with rfl | rfl <;> cases e <;> decide
    · rcases h5 with rfl | rfl <;> cases e <;> decide
    · rcases h6 with rfl | rfl <;> cases e <;> decide
    · cases e <;> simp [Exchange.display, Exchange.lower] <;> tauto
  · intro s h
    unfold Exchange.fromStr
    split_ifs with h1 h2 h3 h4 h5 h6
    · rcases h1 with rfl | rfl
      · exact absurd rfl (h .Binance).1
      · exact absurd rfl (h .Binance).2
    · rcases h2 with rfl | rfl
      · exact absurd rfl (h .BinanceUs).1
      · exact absurd rfl (h .BinanceUs).2
    · rcases h3 with rfl | rfl
      · exact absurd rfl (h .Coinbase).1
      · exact absurd rfl (h .Coinbase).2
    · rcases h4 with rfl | rfl
      · exact absurd rfl (h .Ftx).1
      · exact absurd rfl (h .Ftx).2
    · rcases h5 with rfl | rfl
      · exact absurd rfl (h .FtxUs).1
      · exact absurd rfl (h .FtxUs).2
    · rcases h6 with rfl | rfl
      · exact absurd rfl (h .Kraken).1
      · exact absurd rfl (h .Kraken).2
    · rfl

/-- Witness for C1: instantiates the theorem at "kraken" (accepted as
`Kraken`) and at "KRAKEN" (rejected), discharging each hypothesis
concretely. -/
theorem fromStr_accepts_exactly_two_spellings_witness :
    Exchange.fromStr "kraken" = .ok .Kraken ∧
    Exchange.fromStr "KRAKEN" = .error .InvalidExchange :=
  ⟨(fromStr_accepts_exactly_two_spellings.1 "kraken" .Kraken).mpr
      (Or.inr rfl),
   fromStr_accepts_exactly_two_spellings.2 "KRAKEN"
      (by intro e; cases e <;> exact ⟨by decide, by decide⟩)⟩

/-- C2: parsing the displayed text of any variant recovers the variant. -/
theorem fromStr_display_roundtrip :
    ∀ e : Exchange, Exchange.fromStr e.display = .ok e := by
  intro e
  cases e <;> decide

/-- Witness for C2: the round trip at the concrete variant `BinanceUs`. -/
theorem fromStr_display_roundtrip_witness :
    Exchange.fromStr (Exchange.display .BinanceUs) = .ok .BinanceUs :=
  fromStr_display_roundtrip .BinanceUs

/-- C3: `display` renders the canonical capitalized spelling of each
variant. -/
theorem display_canonical_spelling :
    Exchange.display .Binance = "Binance" ∧
    Exchange.display .BinanceUs = "BinanceUs" ∧
    Exchange.display .Coinbase = "Coinbase" ∧
    Exchange.display .Ftx = "Ftx" ∧
    Exchange.display .FtxUs = "FtxUs" ∧
    Exchange.display .Kraken = "Kraken" :=
  ⟨rfl, rfl, rfl, rfl, rfl, rfl⟩

/-- C4: the factory dispatches each identity to its matching adapter
constructor with the credentials forwarded unchanged; since the result is
literally the constructor's result, it is an error exactly when the
constructor errors, and no validation happens in the factory itself. -/
theorem exchange_client_new_dispatch :
    ∀ (ε C : Type) (a : AdapterConstructors ε C) (creds : ExchangeCredentials),
      exchange_client_new a .Binance creds = a.binance_new creds ∧
      exchange_client_new a .BinanceUs creds = a.binance_new_us creds ∧
      exchange_client_new a .Coinbase creds = a.coinbase_new creds ∧
      exchange_client_new a .Ftx creds = a.ftx_new creds ∧
      exchange_client_new a .FtxUs creds = a.ftx_new_us creds ∧
      exchange_client_new a .Kraken creds = a.kraken_new creds := by
  intro ε C a creds
  exact ⟨rfl, rfl, rfl, rfl, rfl, rfl⟩

/-- Witness for C4: the dispatch equations at sample constructors and a
sample credential bundle. -/
theorem exchange_client_new_dispatch_witness :
    exchange_client_new sampleCtors .Binance sampleCreds =
      sampleCtors.binance_new sampleCreds ∧
    exchange_client_new sampleCtors .BinanceUs sampleCreds =
      sampleCtors.binance_new_us sampleCreds ∧
    exchange_client_new sampleCtors .Coinbase sampleCreds =
      sampleCtors.coinbase_new sampleCreds ∧
    exchange_client_new sampleCtors .Ftx sampleCreds =
      sampleCtors.ftx_new sampleCreds ∧
    exchange_client_new sampleCtors .FtxUs sampleCreds =
      sampleCtors.ftx_new_us sampleCreds ∧
    exchange_client_new sampleCtors .Kraken sampleCreds =
      sampleCtors.kraken_new sampleCreds :=
  exchange_client_new_dispatch Unit Unit sampleCtors sampleCreds

/-- Counterexample to C5: the core does provide a serialized conversion of
a Credential Bundle — `ExchangeCredentials` carries a `Serialize` (and
`Deserialize` and `Debug`) derive in exchange.rs — and on a concrete
bundle the derived serialization emits every field, the secret included. -/
theorem credentials_serialization_exists :
    ExchangeCredentials.serializeFields ⟨"key", "hunter2", none⟩ =
      [("api_key", some "key"), ("secret", some "hunter2"),
       ("subaccount", none)] := rfl

/-- C5 (amended): the core does provide serialization for
`ExchangeCredentials` via its `Serialize`/`Deserialize`/`Debug` derives
(no function inside this module invokes it); the derived serialization
emits all three fields and so determines the bundle exactly. -/
theorem credentials_serialization_faithful :
    ∀ a b : ExchangeCredentials,
      ExchangeCredentials.serializeFields a =
        ExchangeCredentials.serializeFields b ↔ a = b := by
  intro a b
  cases a
  cases b
  simp [ExchangeCredentials.serializeFields]

/-- Witness for the amended C5: faithfulness instantiated at concrete
bundles differing only in the secret. -/
theorem credentials_serialization_faithful_witness :
    ExchangeCredentials.serializeFields ⟨"k", "s1", none⟩ ≠
      ExchangeCredentials.serializeFields ⟨"k", "s2", none⟩ :=
  fun h =>
    absurd ((credentials_serialization_faithful
      ⟨"k", "s1", none⟩ ⟨"k", "s2", none⟩).mp h) (by decide)

/-- C6: the `recent_deposits` result type is three-state — the absent
success value (unsupported) is distinct from the empty-list success value
(supported, none found), and neither absent nor any list is represented
as an error. -/
theorem recent_deposits_three_state :
    ∀ (ε : Type) (err : ε) (l : List DepositInfo),
      ((Except.ok none : RecentDepositsResult ε) ≠ Except.ok (some [])) ∧
      ((Except.ok none : RecentDepositsResult ε) ≠ Except.error err) ∧
      ((Except.ok (some l) : RecentDepositsResult ε) ≠ Except.error err) := by
  intro ε err l
  refine ⟨?_, ?_, ?_⟩ <;> simp

/-- Witness for C6: the three distinctions at a concrete error value and
the empty deposit list. -/
theorem recent_deposits_three_state_witness :
    ((Except.ok none : RecentDepositsResult Unit) ≠ Except.ok (some [])) ∧
    ((Except.ok none : RecentDepositsResult Unit) ≠ Except.error ()) ∧
    ((Except.ok (some []) : RecentDepositsResult Unit) ≠ Except.error ()) :=
  recent_deposits_three_state Unit () []

/-- C7: the derived equality on Credential Bundles holds exactly when the
`api_key`, `secret`, and `subaccount` fields agree pairwise, and it
coincides with identity of the bundles (values are immutable after
construction in this model, as in the source, which defines no mutating
operation). -/
theorem credentials_eq_iff_fields :
    ∀ a b : ExchangeCredentials,
      (ExchangeCredentials.eqImpl a b = true ↔
        (a.api_key = b.api_key ∧ a.secret = b.secret ∧
          a.subaccount = b.subaccount)) ∧
      (ExchangeCredentials.eqImpl a b = true ↔ a = b) := by
  intro a b
  cases a
  cases b
  constructor <;>
    simp [ExchangeCredentials.eqImpl, and_assoc]

/-- Witness for C7: both equivalences at concrete bundles. -/
theorem credentials_eq_iff_fields_witness :
    (ExchangeCredentials.eqImpl ⟨"k", "s", some "a"⟩ ⟨"k", "s", some "a"⟩ = true ↔
      ((⟨"k", "s", some "a"⟩ : ExchangeCredentials).api_key = "k" ∧
        (⟨"k", "s", some "a"⟩ : ExchangeCredentials).secret = "s" ∧
        (⟨"k", "s", some "a"⟩ : ExchangeCredentials).subaccount = some "a")) ∧
    (ExchangeCredentials.eqImpl ⟨"k", "s", some "a"⟩ ⟨"k", "s", some "a"⟩ = true ↔
      (⟨"k", "s", some "a"⟩ : ExchangeCredentials) = ⟨"k", "s", some "a"⟩) :=
  credentials_eq_iff_fields ⟨"k", "s", some "a"⟩ ⟨"k", "s", some "a"⟩

/-- C8: the default `ExchangeBalance` has both amounts equal to zero. -/
theorem exchange_balance_default_zero :
    ExchangeBalance.default.available = 0 ∧
      ExchangeBalance.default.total = 0 :=
  ⟨rfl, rfl⟩

/-- C9: `USD_COINS` is exactly the five-element stablecoin list with
pairwise-distinct elements (it is a plain statically-initialized value in
this module, with no mutation operation defined on it). -/
theorem usd_coins_distinct_five :
    USD_COINS = ["USD", "USDC", "USDT", "BUSD", "ZUSD"] ∧
      USD_COINS.Nodup ∧ USD_COINS.length = 5 := by
  refine ⟨rfl, ?_, rfl⟩
  decide

/-- C10: dispatch in the factory is total over the six `Exchange`
variants — for every identity and credential bundle the result is the
application of one of the six adapter constructors, so no input reaches
an unmatched case. -/
theorem exchange_client_new_total :
    ∀ (ε C : Type) (a : AdapterConstructors ε C) (e : Exchange)
      (creds : ExchangeCredentials),
      exchange_client_new a e creds = a.binance_new creds ∨
      exchange_client_new a e creds = a.binance_new_us creds ∨
      exchange_client_new a e creds = a.coinbase_new creds ∨
      exchange_client_new a e creds = a.ftx_new creds ∨
      exchange_client_new a e creds = a.ftx_new_us creds ∨
      exchange_client_new a e creds = a.kraken_new creds := by
  intro ε C a e creds
  cases e
  · exact Or.inl rfl
  · exact Or.inr (Or.inl rfl)
  · exact Or.inr (Or.inr (Or.inl rfl))
  · exact Or.inr (Or.inr (Or.inr (Or.inl rfl)))
  · exact Or.inr (Or.inr (Or.inr (Or.inr (Or.inl rfl))))
  · exact Or.inr (Or.inr (Or.inr (Or.inr (Or.inr rfl))))

/-- Witness for C10: totality of the dispatch at the concrete identity
`Coinbase` with the sample constructors and credentials. -/
theorem exchange_client_new_total_witness :
    exchange_client_new sampleCtors .Coinbase sampleCreds =
        sampleCtors.binance_new sampleCreds ∨
    exchange_client_new sampleCtors .Coinbase sampleCreds =
        sampleCtors.binance_new_us sampleCreds ∨
    exchange_client_new sampleCtors .Coinbase sampleCreds =
        sampleCtors.coinbase_new sampleCreds ∨
    exchange_client_new sampleCtors .Coinbase sampleCreds =
        sampleCtors.ftx_new sampleCreds ∨
    exchange_client_new sampleCtors .Coinbase sampleCreds =
        sampleCtors.ftx_new_us sampleCreds ∨
    exchange_client_new sampleCtors .Coinbase sampleCreds =
        sampleCtors.kraken_new sampleCreds :=
  exchange_client_new_total Unit Unit sampleCtors .Coinbase sampleCreds
